import Mathlib

/-!
Verification of the Log-Analytics-Go-Kafka alert engine, batch assembler,
migration runner and alert HTTP layer, as a shallow embedding in Lean 4.

Machine floats (`float64`) are embedded as `ℚ`; wall-clock instants
(`time.Time`) are embedded as `Int` (seconds since an arbitrary epoch);
GORM primary keys are `Nat`.  Stateful repository calls become explicit
state passing over an `AlertStore`.
-/

namespace LogAnalytics

/-- Alert lifecycle status (column `status ENUM('active','resolved','acknowledged')`
of the `alerts` table, field `Status` of `models.Alert`). -/
inductive Status where
  | active
  | acknowledged
  | resolved
deriving DecidableEq, Repr

/-- One row of the `alerts` table (struct `models.Alert` plus the table's
`updated_at` column, which the repository writes through raw column maps). -/
structure Alert where
  id : Nat
  ruleId : Nat
  message : String
  severity : String
  value : ℚ
  status : Status
  createdAt : Int
  resolvedAt : Option Int
  acknowledgedAt : Option Int
  updatedAt : Int
deriving DecidableEq, Repr

/-- Struct `models.AlertRule`: `Condition` is a raw SQL fragment (string),
`TimeWindow` is in minutes, `Threshold` is a `float64`. -/
structure AlertRule where
  id : Nat
  name : String
  description : String
  condition : String
  threshold : ℚ
  timeWindow : Int
  severity : String
  enabled : Bool
deriving DecidableEq, Repr

/-- One row of the `logs` table (struct `models.Log`); only the two time
columns matter for the claims: `timestamp` (event time, set by the producer)
and `created_at` (insert time, `DEFAULT CURRENT_TIMESTAMP`). -/
structure LogRecord where
  id : Nat
  timestamp : Int
  level : String
  service : String
  message : String
  createdAt : Int
deriving DecidableEq, Repr

/-- The alerts table together with the auto-increment counter GORM uses to
assign primary keys on `Create`. -/
structure AlertStore where
  alerts : List Alert
  nextId : Nat
deriving DecidableEq, Repr

/-- Embedding of `GetAlerts` with filter `{RuleID: &rule.ID, Status: "active"}`
(GormAlertRepository.GetAlerts, clauses `rule_id = ?` and `status = ?`). -/
def getActiveAlertsForRule (s : AlertStore) (ruleId : Nat) : List Alert :=
  s.alerts.filter fun a => decide (a.ruleId = ruleId ∧ a.status = Status.active)

/-- Embedding of `GormAlertRepository.CreateAlert`: GORM `Create` inserts the row and
assigns the next auto-increment id; `updated_at` takes the insert-time
default. -/
def CreateAlert (s : AlertStore) (a : Alert) : AlertStore :=
  { alerts := s.alerts ++ [{ a with id := s.nextId, updatedAt := a.createdAt }]
    nextId := s.nextId + 1 }

/-- The column map written by `GormAlertRepository.ResolveAlert`:
`status = 'resolved'`, `resolved_at = &now`, `updated_at = now`. -/
def resolveMark (now : Int) (a : Alert) : Alert :=
  { a with status := Status.resolved, resolvedAt := some now, updatedAt := now }

/-- Embedding of `GormAlertRepository.ResolveAlert`: `UPDATE alerts SET status='resolved',
resolved_at=?, updated_at=? WHERE id = ?`.  Returns the updated table and the
number of rows matched (GORM's `RowsAffected`); a zero-row match is not an
error. -/
def ResolveAlertRows (s : AlertStore) (id : Nat) (now : Int) : AlertStore × Nat :=
  ({ s with alerts := s.alerts.map fun a => if a.id = id then resolveMark now a else a },
   (s.alerts.filter fun a => decide (a.id = id)).length)

/-- The state component of `ResolveAlert` (the repository's return value
carries no data besides the error, which is `nil` in this failure-free
model). -/
def ResolveAlert (s : AlertStore) (id : Nat) (now : Int) : AlertStore :=
  (ResolveAlertRows s id now).1

/-- Embedding of `GormAlertRepository.AcknowledgeAlert`: `UPDATE alerts SET
status='acknowledged', acknowledged_at=?, updated_at=? WHERE id = ?`. -/
def AcknowledgeAlert (s : AlertStore) (id : Nat) (now : Int) : AlertStore :=
  { s with alerts := s.alerts.map fun a =>
      if a.id = id then
        { a with status := Status.acknowledged, acknowledgedAt := some now, updatedAt := now }
      else a }

/-- Outcome of `db.QueryRowContext(query).Scan(&result)` inside
`AlertService.evaluateRule`: `sql.ErrNoRows`, some other error, or a scanned
value. -/
inductive QueryOutcome where
  | noRows
  | queryError
  | value (v : ℚ)
deriving DecidableEq, Repr

/-- The `fmt.Sprintf` message of a created alert ("Alert rule '%s' triggered:
%s = %.2f (threshold: %.2f)"); `%.2f` rendering is modelled by `toString`. -/
def alertMessage (rule : AlertRule) (result : ℚ) : String :=
  "Alert rule '" ++ rule.name ++ "' triggered: " ++ rule.condition ++ " = " ++
    toString result ++ " (threshold: " ++ toString rule.threshold ++ ")"

/-- The `models.Alert` literal built by `evaluateRule` when it creates an
alert (id is assigned by the database on insert). -/
def triggeredAlert (rule : AlertRule) (result : ℚ) (now : Int) : Alert :=
  { id := 0
    ruleId := rule.id
    message := alertMessage rule result
    severity := rule.severity
    value := result
    status := Status.active
    createdAt := now
    resolvedAt := none
    acknowledgedAt := none
    updatedAt := now }

/-- Embedding of `AlertService.evaluateRule`: runs the rule's aggregate query (outcome
injected), then either ensures an active alert exists (`result >= threshold`)
or resolves all active alerts of the rule (`result < threshold`).
`sql.ErrNoRows` is a silent no-op; any other query error is returned. -/
def evaluateRule (s : AlertStore) (rule : AlertRule) (outcome : QueryOutcome)
    (now : Int) : Except String AlertStore :=
  match outcome with
  | QueryOutcome.noRows => Except.ok s
  | QueryOutcome.queryError => Except.error "failed to execute alert query"
  | QueryOutcome.value result =>
    if rule.threshold ≤ result then
      if (getActiveAlertsForRule s rule.id).length = 0 then
        Except.ok (CreateAlert s (triggeredAlert rule result now))
      else
        Except.ok s
    else
      Except.ok ((getActiveAlertsForRule s rule.id).foldl
        (fun st a => ResolveAlert st a.id now) s)

/-- The loop body of `AlertService.CheckAlertRules`: disabled rules are
skipped; a failed `evaluateRule` is logged and the loop continues with the
state unchanged. -/
def checkRuleStep (outcome : AlertRule → QueryOutcome) (now : Int)
    (s : AlertStore) (rule : AlertRule) : AlertStore :=
  if rule.enabled then
    match evaluateRule s rule (outcome rule) now with
    | Except.ok s' => s'
    | Except.error _ => s
  else s

/-- Embedding of `AlertService.CheckAlertRules`: one evaluation cycle over the fetched
rules (the per-rule aggregate outcomes are injected as an oracle). -/
def CheckAlertRules (s : AlertStore) (rules : List AlertRule)
    (outcome : AlertRule → QueryOutcome) (now : Int) : AlertStore :=
  rules.foldl (checkRuleStep outcome now) s

/-- One serialized action of the alert lifecycle: a rule evaluation by the
engine (`evaluateRule`, whichever outcome its query produced), or an external
`ResolveAlert` / `AcknowledgeAlert` through the API layer. -/
inductive LifecycleStep : AlertStore → AlertStore → Prop where
  | eval (s s' : AlertStore) (rule : AlertRule) (outcome : QueryOutcome) (now : Int) :
      evaluateRule s rule outcome now = Except.ok s' → LifecycleStep s s'
  | resolve (s : AlertStore) (id : Nat) (now : Int) :
      LifecycleStep s (ResolveAlert s id now)
  | acknowledge (s : AlertStore) (id : Nat) (now : Int) :
      LifecycleStep s (AcknowledgeAlert s id now)

/-- The empty alerts table (fresh schema; auto-increment starts at 1). -/
def initialStore : AlertStore := { alerts := [], nextId := 1 }

/-- States of the alerts table reachable from the fresh schema by the
serialized alert-lifecycle operations. -/
def ReachableStore (s : AlertStore) : Prop :=
  Relation.ReflTransGen LifecycleStep initialStore s

/-- The §3 invariant: at most one alert with status `active` per rule. -/
def AtMostOneActive (s : AlertStore) : Prop :=
  ∀ ruleId : Nat, (getActiveAlertsForRule s ruleId).length ≤ 1

/-! ### The evaluation query built by `AlertService.buildQuery` -/

/-- The columns of the `logs` table an evaluation query can compare against
(the built query names exactly one of them in its WHERE clause). -/
inductive LogColumn where
  | createdAt
  | timestamp
deriving DecidableEq, Repr

/-- The shape of the single-scalar query `buildQuery` produces:
`SELECT <selectExpr> FROM logs WHERE <whereColumn> >= '<whereStart>'`. -/
structure AggQuery where
  selectExpr : String
  whereColumn : LogColumn
  whereStart : Int
deriving DecidableEq, Repr

/-- Embedding of `AlertService.buildQuery` (structured view): the SELECT expression is the
rule's raw `Condition` string, and the WHERE clause compares the `created_at`
column against `time.Now().Add(-TimeWindow * time.Minute)`. -/
def buildQuery (rule : AlertRule) (now : Int) : AggQuery :=
  { selectExpr := rule.condition
    whereColumn := LogColumn.createdAt
    whereStart := now - rule.timeWindow * 60 }

/-- Column lookup on a `logs` row. -/
def columnValue (l : LogRecord) : LogColumn → Int
  | LogColumn.createdAt => l.createdAt
  | LogColumn.timestamp => l.timestamp

/-- Whether a `logs` row satisfies the WHERE clause of the built query (MySQL
evaluates `col >= '<datetime literal>'` as a time comparison). -/
def rowSelected (q : AggQuery) (l : LogRecord) : Bool :=
  decide (q.whereStart ≤ columnValue l q.whereColumn)

/-- The rows of the `logs` table the built query aggregates over. -/
def selectedRows (q : AggQuery) (logs : List LogRecord) : List LogRecord :=
  logs.filter (rowSelected q)

/-- Embedding of `AlertService.buildQuery` (string view): the exact `fmt.Sprintf` of the
source, with the rule's `Condition` and the formatted window start spliced
into the two `%s` holes of the raw-string format. -/
def buildQueryString (condition : String) (windowStart : String) : String :=
  "\n\t\tSELECT " ++ condition ++ " \n\t\tFROM logs \n\t\tWHERE created_at >= '"
    ++ windowStart ++ "'\n\t"

/-! ### Batch assembler (log-processor consumer) and log repository -/

/-- Embedding of `constants.DefaultBatchSize` (Kafka consumer configuration). -/
def DefaultBatchSize : Nat := 20

/-- Embedding of `GormLogRepository.CreateLogBatch`: an empty batch is a no-op; otherwise
the whole batch is inserted (GORM `CreateInBatches`). -/
def CreateLogBatch (table : List LogRecord) (logs : List LogRecord) : List LogRecord :=
  if logs.length = 0 then table else table ++ logs

/-- In-memory state of one consuming worker of the batch assembler: the
arrival-order buffer and the flushes issued so far. -/
structure BatchState (α : Type) where
  buffer : List α
  flushes : List (List α)
deriving Repr

/-- Modelled from the spec: the per-record step of the Batch Assembler's
consume loop (package `internal/kafka/consumers`, not present under `src/`).
Per §4.1, a record is appended to the buffer in arrival order, and the buffer
is flushed as one batch exactly when its size reaches the configured maximum
`B`. -/
def consumeRecord (B : Nat) (st : BatchState α) (r : α) : BatchState α :=
  let buf := st.buffer ++ [r]
  if buf.length = B then { buffer := [], flushes := st.flushes ++ [buf] }
  else { buffer := buf, flushes := st.flushes }

/-- Modelled from the spec: the final deadline/shutdown flush of §4.1 — a
non-empty remainder buffer is force-flushed so no buffered record is dropped;
an empty buffer produces no flush call. -/
def finalFlush (st : BatchState α) : List (List α) :=
  if st.buffer.isEmpty then st.flushes else st.flushes ++ [st.buffer]

/-- Modelled from the spec: the batches the assembler flushes for a record
sequence when no deadline timer fires before the buffer fills (§8): consume
each record in order from an empty buffer, then force-flush the remainder. -/
def assembleBatches (B : Nat) (recs : List α) : List (List α) :=
  finalFlush (recs.foldl (consumeRecord B) { buffer := [], flushes := [] })

/-! ### Migration runner (`cmd/migration/main.go`) -/

/-- A migration file (`Migration` struct): id parsed from the filename
prefix, the filename, and the raw SQL content. -/
structure Migration where
  id : String
  filename : String
  content : String
deriving DecidableEq, Repr

/-- Embedding of `MigrationRunner.splitSQLStatements`: drop blank and `--` comment lines,
join the rest with spaces, split on `;`, trim, and drop empties. -/
def splitSQLStatements (content : String) : List String :=
  let lines := content.splitOn "\n"
  let cleanLines := (lines.map String.trim).filter fun l =>
    !(l == "") && !(l.startsWith "--")
  let cleanContent := String.intercalate " " cleanLines
  let statements := cleanContent.splitOn ";"
  (statements.map String.trim).filter fun stmt => !(stmt == "")

/-- The dispatch in `MigrationRunner.executeStatement`: a statement whose
upper-cased text starts with `USE ` is executed directly on the connection,
outside the transaction; every other statement runs inside the transaction. -/
def isUseStatement (stmt : String) : Bool :=
  stmt.toUpper.startsWith "USE "

/-- One committed transaction of the migration runner: the statements it ran
and the row inserted into the `migrations` tracking table, if any. -/
structure MigTx where
  statements : List String
  record : Option (String × String × String)
deriving DecidableEq, Repr

/-- Database state visible to the migration runner: statements executed
directly on the connection and the log of committed transactions. -/
structure MigDB where
  connStatements : List String
  txLog : List MigTx
deriving DecidableEq, Repr

/-- The `migrations` tracking table: the rows recorded by committed
transactions. -/
def migrationsTable (db : MigDB) : List (String × String × String) :=
  db.txLog.filterMap MigTx.record

/-- Embedding of `MigrationRunner.ApplyMigration`: split the content into statements, run
`USE` statements on the connection and the rest in one transaction; for ids
`"000"` and `"001"` commit without recording, otherwise insert
`(id, filename, checksum(content))` into `migrations` inside the same
transaction.  The checksum function (`sha256` hex in the source) is a
parameter of the model. -/
def ApplyMigration (checksum : String → String) (db : MigDB) (m : Migration) : MigDB :=
  let stmts := splitSQLStatements m.content
  let useStmts := stmts.filter isUseStatement
  let txStmts := stmts.filter fun stmt => !(isUseStatement stmt)
  let record : Option (String × String × String) :=
    if m.id = "000" then none
    else if m.id = "001" then none
    else some (m.id, m.filename, checksum m.content)
  { connStatements := db.connStatements ++ useStmts
    txLog := db.txLog ++ [{ statements := txStmts, record := record }] }

/-! ### Alert HTTP handler (`internal/handlers/alerts.go`) -/

/-- Embedding of `strconv.ParseUint(idStr, 10, 32)`: accept a non-empty
all-digit string whose value fits in 32 bits, reject anything else. -/
def parseUint32 (s : String) : Option Nat :=
  if s.data.isEmpty then none
  else
    match s.data.foldl (fun acc? c =>
      match acc? with
      | none => none
      | some acc => if c.isDigit then some (acc * 10 + (c.toNat - 48)) else none)
      (some 0) with
    | none => none
    | some n => if n < 4294967296 then some n else none

/-- Embedding of `AlertHandler.ResolveAlert`: parse the `:id` path parameter
(`strconv.ParseUint`); `400` on a bad id, otherwise call the repository and
answer `200` — the repository call errors only on database failure, which the
model excludes, and never because zero rows matched. -/
def resolveAlertHandler (s : AlertStore) (idStr : String) (now : Int) :
    Nat × AlertStore :=
  match parseUint32 idStr with
  | none => (400, s)
  | some id => (200, ResolveAlert s id now)

/-- A concrete rule used to instantiate theorems with hypotheses (the §8
scenario-A rule of the spec). -/
def demoRule : AlertRule :=
  { id := 7
    name := "High Error Count"
    description := "error count over 5m"
    condition := "COUNT(*)"
    threshold := 5
    timeWindow := 5
    severity := "high"
    enabled := true }

/-! ## Lemmas -/

theorem length_filter_map_le {α : Type} (l : List α) (f : α → α) (p : α → Bool)
    (h : ∀ a, p (f a) = true → p a = true) :
    ((l.map f).filter p).length ≤ (l.filter p).length := by
  induction l with
  | nil => simp
  | cons a t ih =>
    simp only [List.map_cons, List.filter_cons]
    cases hfa : p (f a) with
    | true =>
      have hpa := h a hfa
      simp only [hpa, List.length_cons]
      exact Nat.succ_le_succ ih
    | false =>
      cases hpa : p a with
      | true =>
        simp only [List.length_cons]
        exact Nat.le_succ_of_le ih
      | false => exact ih

theorem countActive_resolve_le (s : AlertStore) (i : Nat) (now : Int) (rid : Nat) :
    (getActiveAlertsForRule (ResolveAlert s i now) rid).length ≤
      (getActiveAlertsForRule s rid).length := by
  unfold getActiveAlertsForRule ResolveAlert ResolveAlertRows
  apply length_filter_map_le
  intro a hpa
  by_cases h : a.id = i
  · simp [h, resolveMark] at hpa
  · simpa [h] using hpa

theorem countActive_acknowledge_le (s : AlertStore) (i : Nat) (now : Int) (rid : Nat) :
    (getActiveAlertsForRule (AcknowledgeAlert s i now) rid).length ≤
      (getActiveAlertsForRule s rid).length := by
  unfold getActiveAlertsForRule AcknowledgeAlert
  apply length_filter_map_le
  intro a hpa
  by_cases h : a.id = i
  · simp [h] at hpa
  · simpa [h] using hpa

theorem resolveMark_idem (now : Int) (a : Alert) :
    resolveMark now (resolveMark now a) = resolveMark now a := rfl

theorem foldl_resolve_eq (ids : List Nat) (now : Int) (s : AlertStore) :
    ids.foldl (fun st i => ResolveAlert st i now) s =
      { s with alerts := s.alerts.map fun a =>
          if a.id ∈ ids then resolveMark now a else a } := by
  induction ids generalizing s with
  | nil => simp
  | cons i t ih =>
    rw [List.foldl_cons, ih]
    have hfun : ((fun a : Alert => if a.id ∈ t then resolveMark now a else a) ∘
        fun a : Alert => if a.id = i then resolveMark now a else a) =
        fun a : Alert => if a.id ∈ i :: t then resolveMark now a else a := by
      funext a
      by_cases h1 : a.id = i
      · by_cases h2 : a.id ∈ t <;> simp [Function.comp, h1, h2, resolveMark]
      · by_cases h2 : a.id ∈ t <;> simp [Function.comp, h1, h2]
    simp only [ResolveAlert, ResolveAlertRows, List.map_map, hfun]

theorem countActive_resolveAll_le (ids : List Nat) (now : Int) (s : AlertStore) (rid : Nat) :
    (getActiveAlertsForRule (ids.foldl (fun st i => ResolveAlert st i now) s) rid).length ≤
      (getActiveAlertsForRule s rid).length := by
  rw [foldl_resolve_eq]
  unfold getActiveAlertsForRule
  apply length_filter_map_le
  intro a hpa
  by_cases hmem : a.id ∈ ids
  · simp [hmem, resolveMark] at hpa
  · simpa [hmem] using hpa

theorem getActive_create (s : AlertStore) (a : Alert) (rid : Nat) :
    getActiveAlertsForRule (CreateAlert s a) rid =
      getActiveAlertsForRule s rid ++
        (if a.ruleId = rid ∧ a.status = Status.active then
          [{ a with id := s.nextId, updatedAt := a.createdAt }] else []) := by
  simp only [getActiveAlertsForRule, CreateAlert, List.filter_append]
  congr 1
  by_cases h : a.ruleId = rid ∧ a.status = Status.active
  · simp [h]
  · simp [h]

theorem evaluateRule_preserves (s s' : AlertStore) (rule : AlertRule)
    (outcome : QueryOutcome) (now : Int) (h : AtMostOneActive s)
    (he : evaluateRule s rule outcome now = Except.ok s') : AtMostOneActive s' := by
  cases outcome with
  | noRows =>
    simp only [evaluateRule] at he
    injection he with he'
    exact he' ▸ h
  | queryError => simp [evaluateRule] at he
  | value v =>
    simp only [evaluateRule] at he
    by_cases hth : rule.threshold ≤ v
    · rw [if_pos hth] at he
      by_cases hzero : (getActiveAlertsForRule s rule.id).length = 0
      · rw [if_pos hzero] at he
        injection he with he'
        subst he'
        intro rid
        rw [getActive_create, List.length_append]
        by_cases hrid : rule.id = rid
        · have h0 : (getActiveAlertsForRule s rid).length = 0 := hrid ▸ hzero
          simp [triggeredAlert, hrid, h0]
        · simp only [triggeredAlert]
          rw [if_neg (by simp [hrid])]
          simpa using h rid
      · rw [if_neg hzero] at he
        injection he with he'
        exact he' ▸ h
    · rw [if_neg hth] at he
      injection he with he'
      subst he'
      intro rid
      have hb := countActive_resolveAll_le ((getActiveAlertsForRule s rule.id).map Alert.id)
        now s rid
      rw [List.foldl_map] at hb
      exact le_trans hb (h rid)

/-- C1: under a single serialized evaluator, every alert-lifecycle operation
(rule evaluation, external resolve, external acknowledge) preserves the §3
invariant of at most one `active` alert per rule, and every reachable state
of the lifecycle satisfies it. -/
theorem activeAlertUniqueness :
    (∀ s s' : AlertStore, AtMostOneActive s → LifecycleStep s s' → AtMostOneActive s') ∧
    ∀ s : AlertStore, ReachableStore s → AtMostOneActive s := by
  have hstep : ∀ s s' : AlertStore, AtMostOneActive s → LifecycleStep s s' →
      AtMostOneActive s' := by
    intro s s' h hs
    cases hs with
    | eval s' rule outcome now he => exact evaluateRule_preserves s s' rule outcome now h he
    | resolve id now => exact fun rid => le_trans (countActive_resolve_le s id now rid) (h rid)
    | acknowledge id now =>
      exact fun rid => le_trans (countActive_acknowledge_le s id now rid) (h rid)
  refine ⟨hstep, ?_⟩
  intro s hr
  induction hr with
  | refl => intro rid; simp [getActiveAlertsForRule, initialStore]
  | tail _ hlast ih => exact hstep _ _ ih hlast

/-- Closed instance of C1: the initial state is reachable and satisfies the
invariant. -/
theorem activeAlertUniqueness_witness : AtMostOneActive initialStore :=
  activeAlertUniqueness.2 initialStore Relation.ReflTransGen.refl

/-- C2: for an enabled rule whose aggregate value reaches the threshold
(boundary-inclusive), `evaluateRule` creates exactly one new alert — status
`active`, severity copied from the rule, value equal to the aggregate — when
no active alert exists for the rule, and leaves the store untouched when one
already exists. -/
theorem evaluateRule_threshold_met (s : AlertStore) (rule : AlertRule) (v : ℚ)
    (now : Int) (_hen : rule.enabled = true) (hv : rule.threshold ≤ v) :
    (getActiveAlertsForRule s rule.id = [] →
      evaluateRule s rule (QueryOutcome.value v) now =
        Except.ok { alerts := s.alerts ++ [{ triggeredAlert rule v now with id := s.nextId }]
                    nextId := s.nextId + 1 } ∧
      (triggeredAlert rule v now).status = Status.active ∧
      (triggeredAlert rule v now).severity = rule.severity ∧
      (triggeredAlert rule v now).value = v) ∧
    (getActiveAlertsForRule s rule.id ≠ [] →
      evaluateRule s rule (QueryOutcome.value v) now = Except.ok s) := by
  constructor
  · intro hempty
    refine ⟨?_, rfl, rfl, rfl⟩
    simp only [evaluateRule, if_pos hv, hempty, List.length_nil, if_pos rfl]
    simp [CreateAlert, triggeredAlert]
  · intro hne
    have hlen : (getActiveAlertsForRule s rule.id).length ≠ 0 := by
      simpa [List.length_eq_zero] using hne
    simp only [evaluateRule, if_pos hv, if_neg hlen]

/-- Closed instance of C2 at the inclusive boundary: aggregate 5 against
threshold 5 on an empty store creates the one active alert. -/
theorem evaluateRule_threshold_met_witness :
    evaluateRule initialStore demoRule (QueryOutcome.value 5) 100 =
      Except.ok { alerts := initialStore.alerts ++
                    [{ triggeredAlert demoRule 5 100 with id := initialStore.nextId }]
                  nextId := initialStore.nextId + 1 } ∧
    (triggeredAlert demoRule 5 100).status = Status.active ∧
    (triggeredAlert demoRule 5 100).severity = demoRule.severity ∧
    (triggeredAlert demoRule 5 100).value = 5 :=
  (evaluateRule_threshold_met initialStore demoRule 5 100 rfl (le_refl 5)).1 rfl

/-- C3: for a rule whose aggregate value is strictly below the threshold,
`evaluateRule` resolves every active alert of that rule (status `resolved`,
`resolved_at` set to now), touches no other alert, and creates no new alert. -/
theorem evaluateRule_below_threshold (s : AlertStore) (rule : AlertRule) (v : ℚ)
    (now : Int) (hv : v < rule.threshold)
    (hids : (s.alerts.map Alert.id).Nodup) :
    evaluateRule s rule (QueryOutcome.value v) now =
      Except.ok { s with alerts := s.alerts.map fun a =>
        if a.ruleId = rule.id ∧ a.status = Status.active then resolveMark now a else a } := by
  simp only [evaluateRule, if_neg (not_le.mpr hv)]
  have hfold := foldl_resolve_eq ((getActiveAlertsForRule s rule.id).map Alert.id) now s
  rw [List.foldl_map] at hfold
  rw [hfold]
  have halerts : s.alerts.map
      (fun a => if a.id ∈ (getActiveAlertsForRule s rule.id).map Alert.id then
        resolveMark now a else a) =
      s.alerts.map (fun a =>
        if a.ruleId = rule.id ∧ a.status = Status.active then resolveMark now a else a) := by
    apply List.map_congr_left
    intro a ha
    have hiff : a.id ∈ (getActiveAlertsForRule s rule.id).map Alert.id ↔
        (a.ruleId = rule.id ∧ a.status = Status.active) := by
      constructor
      · intro hmem
        obtain ⟨b, hb, hba⟩ := List.mem_map.mp hmem
        have hbmem : b ∈ s.alerts := List.mem_of_mem_filter hb
        have hbp : b.ruleId = rule.id ∧ b.status = Status.active := by
          have := List.of_mem_filter hb
          simpa using this
        have : b = a := List.inj_on_of_nodup_map hids hbmem ha hba
        exact this ▸ hbp
      · intro hp
        exact List.mem_map.mpr ⟨a, List.mem_filter.mpr ⟨ha, by simpa using hp⟩, rfl⟩
    by_cases hp : a.ruleId = rule.id ∧ a.status = Status.active
    · rw [if_pos (hiff.mpr hp), if_pos hp]
    · rw [if_neg (fun hmem => hp (hiff.mp hmem)), if_neg hp]
  rw [halerts]

/-- A store with one active alert for rule 7 and one for rule 9, used to
instantiate the below-threshold theorem. -/
def c3Store : AlertStore :=
  { alerts :=
      [{ id := 1, ruleId := 7, message := "a", severity := "high", value := 6
         status := Status.active, createdAt := 0, resolvedAt := none
         acknowledgedAt := none, updatedAt := 0 },
       { id := 2, ruleId := 9, message := "b", severity := "low", value := 3
         status := Status.active, createdAt := 0, resolvedAt := none
         acknowledgedAt := none, updatedAt := 0 }]
    nextId := 3 }

/-- Closed instance of C3: aggregate 3 against threshold 5 resolves rule 7's
active alert and leaves rule 9's untouched. -/
theorem evaluateRule_below_threshold_witness :
    evaluateRule c3Store demoRule (QueryOutcome.value 3) 200 =
      Except.ok { c3Store with alerts := c3Store.alerts.map fun a =>
        if a.ruleId = demoRule.id ∧ a.status = Status.active then resolveMark 200 a else a } :=
  evaluateRule_below_threshold c3Store demoRule 3 200 (by decide) (by decide)

/-- C5: a rule whose evaluation fails (its query returns an error) is skipped
and contributes nothing to the cycle — the cycle's result over any rule list
containing the failing rule equals the result over the same list without it,
so every remaining rule (in particular a succeeding one later in the list) is
still evaluated and still produces its alert. -/
theorem checkAlertRules_failure_isolated (s : AlertStore) (pre post : List AlertRule)
    (r : AlertRule) (outcome : AlertRule → QueryOutcome) (now : Int)
    (hfail : outcome r = QueryOutcome.queryError) :
    CheckAlertRules s (pre ++ r :: post) outcome now =
      CheckAlertRules s (pre ++ post) outcome now := by
  unfold CheckAlertRules
  rw [List.foldl_append, List.foldl_append, List.foldl_cons]
  have hskip : ∀ st : AlertStore, checkRuleStep outcome now st r = st := by
    intro st
    simp [checkRuleStep, hfail, evaluateRule]
  rw [hskip]

/-- A rule whose aggregate query is made to fail in the C5 scenario. -/
def failingRule : AlertRule :=
  { id := 1, name := "Failing", description := "", condition := "BROKEN("
    threshold := 1, timeWindow := 5, severity := "low", enabled := true }

/-- The C5 scenario oracle: rule 1's query errors, every other query returns
an aggregate of 10. -/
def c5Outcome : AlertRule → QueryOutcome :=
  fun rule => if rule.id = 1 then QueryOutcome.queryError else QueryOutcome.value 10

/-- Closed instance of C5 (scenario D of §8): with the failing rule first and
the succeeding rule second, the cycle equals the cycle over the succeeding
rule alone. -/
theorem checkAlertRules_failure_isolated_witness :
    CheckAlertRules initialStore ([] ++ failingRule :: [demoRule]) c5Outcome 300 =
      CheckAlertRules initialStore ([] ++ [demoRule]) c5Outcome 300 :=
  checkAlertRules_failure_isolated initialStore [] [demoRule] failingRule c5Outcome 300 rfl

/-- A store holding a single freshly created active alert (id 1, rule 7), the
starting point of the C6 double-resolve scenario. -/
def c6Store : AlertStore :=
  { alerts :=
      [{ id := 1, ruleId := 7, message := "a", severity := "high", value := 6
         status := Status.active, createdAt := 0, resolvedAt := none
         acknowledgedAt := none, updatedAt := 0 }]
    nextId := 2 }

/-- Counterexample to C6 as stated: resolving alert 1 again at a later time
does not leave the store in the same state as after the first call — the
second call overwrites `resolved_at` (and `updated_at`) with its own
timestamp. -/
theorem resolveAlert_second_call_changes_state :
    ResolveAlert (ResolveAlert c6Store 1 10) 1 20 ≠ ResolveAlert c6Store 1 10 := by
  decide

/-- C6 (amended): a second `ResolveAlert` on an already-resolved alert is
absorbed — it returns no error, creates no duplicate row, keeps the status
`resolved`, and leaves the store exactly as if only the second call had run
(so repeated calls at the same timestamp are exactly idempotent); the only
re-done side effect is overwriting `resolved_at`/`updated_at` with the second
call's time. -/
theorem resolveAlert_absorb (s : AlertStore) (id : Nat) (t1 t2 : Int) :
    ResolveAlert (ResolveAlert s id t1) id t2 = ResolveAlert s id t2 := by
  simp only [ResolveAlert, ResolveAlertRows, List.map_map]
  have hfun : ((fun a : Alert => if a.id = id then resolveMark t2 a else a) ∘
      fun a : Alert => if a.id = id then resolveMark t1 a else a) =
      fun a : Alert => if a.id = id then resolveMark t2 a else a := by
    funext a
    by_cases h : a.id = id
    · simp [Function.comp, h, resolveMark]
    · simp [Function.comp, h]
  rw [hfun]

/-- Closed instance of the amended C6: double-resolving alert 1 at times 10
then 20 equals a single resolve at time 20. -/
theorem resolveAlert_absorb_witness :
    ResolveAlert (ResolveAlert c6Store 1 10) 1 20 = ResolveAlert c6Store 1 20 :=
  resolveAlert_absorb c6Store 1 10 20

/-- A log record whose event `timestamp` is far older than the evaluation
window but whose `created_at` (insert time) is current. -/
def staleLog : LogRecord :=
  { id := 1, timestamp := 0, level := "ERROR", service := "api"
    message := "boom", createdAt := 1000 }

/-- Counterexample to C4 as stated: the query built for the 5-minute demo
rule at now = 1000 selects `staleLog` even though its `timestamp` lies before
the trailing window start — `buildQuery` restricts `created_at`, not
`timestamp`. -/
theorem buildQuery_includes_pre_window_timestamp :
    rowSelected (buildQuery demoRule 1000) staleLog = true ∧
    staleLog.timestamp < 1000 - demoRule.timeWindow * 60 := by
  decide

/-- C4 (amended): the aggregate for one evaluation is computed over the log
records whose `created_at` (insert time) is at or after now − time_window
minutes; the event `timestamp` column plays no role in the restriction. -/
theorem buildQuery_window_restricts_created_at (rule : AlertRule) (now : Int) :
    (∀ l : LogRecord, rowSelected (buildQuery rule now) l = true ↔
      now - rule.timeWindow * 60 ≤ l.createdAt) ∧
    ∀ logs : List LogRecord, selectedRows (buildQuery rule now) logs =
      logs.filter fun l => decide (now - rule.timeWindow * 60 ≤ l.createdAt) := by
  constructor
  · intro l
    simp [rowSelected, buildQuery, columnValue]
  · intro logs
    unfold selectedRows
    apply List.filter_congr
    intro l _
    simp [rowSelected, buildQuery, columnValue]

/-- Closed instance of the amended C4: the built query's row predicate on
`staleLog` is equivalent to the `created_at` bound, and selection over the
singleton table filters by `created_at`. -/
theorem buildQuery_window_restricts_created_at_witness :
    (rowSelected (buildQuery demoRule 1000) staleLog = true ↔
      1000 - demoRule.timeWindow * 60 ≤ staleLog.createdAt) ∧
    selectedRows (buildQuery demoRule 1000) [staleLog] =
      [staleLog].filter fun l => decide (1000 - demoRule.timeWindow * 60 ≤ l.createdAt) :=
  ⟨(buildQuery_window_restricts_created_at demoRule 1000).1 staleLog,
   (buildQuery_window_restricts_created_at demoRule 1000).2 [staleLog]⟩

/-- Counterexample to C8 as stated: a condition string carrying a SQL
injection payload passes into the evaluation query verbatim, both in the
generated SQL text and as the SELECT expression of the structured query —
the condition is concatenated directly, not compiled from a constrained
typed representation. -/
theorem buildQuery_splices_injection_payload :
    buildQueryString "0; DROP TABLE logs; --" "2024-01-01 00:00:00" =
      "\n\t\tSELECT 0; DROP TABLE logs; -- \n\t\tFROM logs \n\t\tWHERE created_at >= '2024-01-01 00:00:00'\n\t" ∧
    (buildQuery { demoRule with condition := "0; DROP TABLE logs; --" } 1000).selectExpr =
      "0; DROP TABLE logs; --" := by
  exact ⟨rfl, rfl⟩

/-- C8 (amended): `buildQuery` concatenates the rule's raw condition string
directly into the query — for every condition the generated SQL is literally
header ++ condition ++ middle ++ window-start ++ tail, with no escaping,
parameterization or typed compilation, and the structured query's SELECT
expression is the untouched condition. -/
theorem buildQuery_interpolates_condition_verbatim (cond ts : String)
    (rule : AlertRule) (now : Int) :
    (buildQueryString cond ts).data =
      "\n\t\tSELECT ".data ++ cond.data ++
        " \n\t\tFROM logs \n\t\tWHERE created_at >= '".data ++ ts.data ++ "'\n\t".data ∧
    (buildQuery rule now).selectExpr = rule.condition := by
  refine ⟨?_, rfl⟩
  simp [buildQueryString, String.data_append]

/-- Closed instance of the amended C8 at the demo rule's condition. -/
theorem buildQuery_interpolates_condition_verbatim_witness :
    (buildQueryString "COUNT(*)" "2024-01-01 00:00:00").data =
      "\n\t\tSELECT ".data ++ "COUNT(*)".data ++
        " \n\t\tFROM logs \n\t\tWHERE created_at >= '".data ++
        "2024-01-01 00:00:00".data ++ "'\n\t".data ∧
    (buildQuery demoRule 500).selectExpr = demoRule.condition :=
  buildQuery_interpolates_condition_verbatim "COUNT(*)" "2024-01-01 00:00:00" demoRule 500

/-- C9: `ApplyMigration` executes the statements of migrations `"000"` and
`"001"` (the `USE` statements on the connection, the rest in one committed
transaction) but inserts nothing into the `migrations` tracking table, while
for every other id the committed transaction contains both the migration's
non-`USE` statements and the `(id, filename, checksum(content))` record. -/
theorem applyMigration_recording (checksum : String → String) (db : MigDB)
    (m : Migration) :
    ((m.id = "000" ∨ m.id = "001") →
      ApplyMigration checksum db m =
        { connStatements := db.connStatements ++
            (splitSQLStatements m.content).filter isUseStatement
          txLog := db.txLog ++
            [{ statements := (splitSQLStatements m.content).filter
                 (fun stmt => !(isUseStatement stmt))
               record := none }] } ∧
      migrationsTable (ApplyMigration checksum db m) = migrationsTable db) ∧
    (m.id ≠ "000" → m.id ≠ "001" →
      ApplyMigration checksum db m =
        { connStatements := db.connStatements ++
            (splitSQLStatements m.content).filter isUseStatement
          txLog := db.txLog ++
            [{ statements := (splitSQLStatements m.content).filter
                 (fun stmt => !(isUseStatement stmt))
               record := some (m.id, m.filename, checksum m.content) }] } ∧
      migrationsTable (ApplyMigration checksum db m) =
        migrationsTable db ++ [(m.id, m.filename, checksum m.content)]) := by
  constructor
  · intro hid
    have hrec : (if m.id = "000" then none
        else if m.id = "001" then none
        else some (m.id, m.filename, checksum m.content)) =
        (none : Option (String × String × String)) := by
      rcases hid with h | h <;> simp [h]
    refine ⟨?_, ?_⟩
    · simp only [ApplyMigration, hrec]
    · simp [migrationsTable, ApplyMigration, hrec, List.filterMap_append]
  · intro h0 h1
    have hrec : (if m.id = "000" then none
        else if m.id = "001" then none
        else some (m.id, m.filename, checksum m.content)) =
        some (m.id, m.filename, checksum m.content) := by
      simp [h0, h1]
    refine ⟨?_, ?_⟩
    · simp only [ApplyMigration, hrec]
    · simp [migrationsTable, ApplyMigration, hrec, List.filterMap_append]

/-- The repository's bootstrap migration `000_create_database.sql` (id and
content abridged to its two statements). -/
def mig000 : Migration :=
  { id := "000"
    filename := "000_create_database.sql"
    content := "-- Database Creation Migration\nCREATE DATABASE IF NOT EXISTS log_analytics;\nUSE log_analytics;\n" }

/-- The repository's schema migration `002_initial_schema.sql` (content
abridged to one statement). -/
def mig002 : Migration :=
  { id := "002"
    filename := "002_initial_schema.sql"
    content := "-- Initial Database Schema Migration\nCREATE TABLE IF NOT EXISTS logs (id BIGINT);\n" }

/-- The empty migration database. -/
def emptyMigDB : MigDB := { connStatements := [], txLog := [] }

/-- Closed instance of C9: applying migration 000 leaves the tracking table
empty; applying migration 002 afterwards records exactly its row. -/
theorem applyMigration_recording_witness :
    migrationsTable (ApplyMigration (fun c => c) emptyMigDB mig000) =
      migrationsTable emptyMigDB ∧
    migrationsTable (ApplyMigration (fun c => c)
        (ApplyMigration (fun c => c) emptyMigDB mig000) mig002) =
      migrationsTable (ApplyMigration (fun c => c) emptyMigDB mig000) ++
        [("002", "002_initial_schema.sql", mig002.content)] :=
  ⟨((applyMigration_recording (fun c => c) emptyMigDB mig000).1 (Or.inl rfl)).2,
   ((applyMigration_recording (fun c => c)
      (ApplyMigration (fun c => c) emptyMigDB mig000) mig002).2
      (by decide) (by decide)).2⟩

/-- A store whose only alert has id 1, against which id 2 is resolved. -/
def c10Store : AlertStore :=
  { alerts :=
      [{ id := 1, ruleId := 7, message := "a", severity := "high", value := 6
         status := Status.active, createdAt := 0, resolvedAt := none
         acknowledgedAt := none, updatedAt := 0 }]
    nextId := 2 }

/-- C10: resolving an id that matches no stored alert succeeds — the update
matches zero rows (GORM `RowsAffected` 0, `Error` nil), leaves every stored
alert unchanged, and the HTTP resolve endpoint consequently answers 200 with
the store untouched. -/
theorem resolveAlert_missing_id (s : AlertStore) (id : Nat) (now : Int)
    (hmiss : ∀ a ∈ s.alerts, a.id ≠ id) :
    ResolveAlertRows s id now = (s, 0) ∧
    ∀ idStr : String, parseUint32 idStr = some id →
      resolveAlertHandler s idStr now = (200, s) := by
  have hmap : (s.alerts.map fun a => if a.id = id then resolveMark now a else a) =
      s.alerts := by
    have : ∀ a ∈ s.alerts, (if a.id = id then resolveMark now a else a) = a :=
      fun a ha => if_neg (hmiss a ha)
    rw [List.map_congr_left this]
    exact List.map_id' s.alerts
  have hcount : (s.alerts.filter fun a => decide (a.id = id)).length = 0 := by
    rw [List.length_eq_zero]
    apply List.filter_eq_nil_iff.mpr
    intro a ha
    simp [hmiss a ha]
  have hrows : ResolveAlertRows s id now = (s, 0) := by
    unfold ResolveAlertRows
    rw [hmap, hcount]
  refine ⟨hrows, ?_⟩
  intro idStr hparse
  unfold resolveAlertHandler
  rw [hparse]
  show (200, (ResolveAlertRows s id now).1) = (200, s)
  rw [hrows]

/-- Closed instance of C10: resolving id 2 against a store holding only
alert 1, also through the handler with path parameter "2". -/
theorem resolveAlert_missing_id_witness :
    ResolveAlertRows c10Store 2 50 = (c10Store, 0) ∧
    resolveAlertHandler c10Store "2" 50 = (200, c10Store) :=
  ⟨(resolveAlert_missing_id c10Store 2 50 (by decide)).1,
   (resolveAlert_missing_id c10Store 2 50 (by decide)).2 "2" (by decide)⟩

theorem consume_fold_spec {α : Type} (B : Nat) (hB : 0 < B) (recs : List α) :
    ∀ st : BatchState α, st.buffer.length < B →
      ((recs.foldl (consumeRecord B) st).buffer.length =
        (st.buffer.length + recs.length) % B) ∧
      ((recs.foldl (consumeRecord B) st).flushes.length =
        st.flushes.length + (st.buffer.length + recs.length) / B) ∧
      (∀ b ∈ (recs.foldl (consumeRecord B) st).flushes, b ∈ st.flushes ∨ b.length = B) ∧
      ((recs.foldl (consumeRecord B) st).flushes.flatten ++
          (recs.foldl (consumeRecord B) st).buffer =
        st.flushes.flatten ++ st.buffer ++ recs) := by
  induction recs with
  | nil =>
    intro st hst
    refine ⟨?_, ?_, fun b hb => Or.inl hb, ?_⟩
    · simp [Nat.mod_eq_of_lt hst]
    · simp [Nat.div_eq_of_lt hst]
    · simp
  | cons r rest ih =>
    intro st hst
    rw [List.foldl_cons]
    by_cases hfull : (st.buffer ++ [r]).length = B
    · have hstep : consumeRecord B st r =
          { buffer := ([] : List α), flushes := st.flushes ++ [st.buffer ++ [r]] } := by
        simp only [consumeRecord, if_pos hfull]
      rw [hstep]
      obtain ⟨h1, h2, h3, h4⟩ :=
        ih { buffer := ([] : List α), flushes := st.flushes ++ [st.buffer ++ [r]] }
          (by simpa using hB)
      have hlen : st.buffer.length + 1 = B := by simpa using hfull
      refine ⟨?_, ?_, ?_, ?_⟩
      · rw [h1]
        simp only [List.length_nil, List.length_cons, Nat.zero_add]
        have heq : st.buffer.length + (rest.length + 1) = B + rest.length := by omega
        rw [heq, Nat.add_mod_left]
      · rw [h2]
        simp only [List.length_append, List.length_nil, List.length_cons,
          List.length_singleton, Nat.zero_add]
        have heq : st.buffer.length + (rest.length + 1) = rest.length + B := by omega
        rw [heq, Nat.add_div_right _ hB]
        omega
      · intro b hb
        rcases h3 b hb with hin | hlenB
        · rcases List.mem_append.mp hin with h | h
          · exact Or.inl h
          · right
            have hb' : b = st.buffer ++ [r] := by simpa using h
            rw [hb']
            exact hfull
        · exact Or.inr hlenB
      · rw [h4]
        simp [List.append_assoc]
    · have hstep : consumeRecord B st r =
          { buffer := st.buffer ++ [r], flushes := st.flushes } := by
        simp only [consumeRecord, if_neg hfull]
      rw [hstep]
      have hlt : (st.buffer ++ [r]).length < B := by
        simp only [List.length_append, List.length_singleton]
        have hne : st.buffer.length + 1 ≠ B := by simpa using hfull
        omega
      obtain ⟨h1, h2, h3, h4⟩ := ih { buffer := st.buffer ++ [r], flushes := st.flushes } hlt
      simp only [List.length_append, List.length_singleton, List.length_cons,
        List.length_nil, Nat.zero_add] at h1 h2
      refine ⟨?_, ?_, h3, ?_⟩
      · rw [h1]
        simp only [List.length_cons]
        congr 1
        omega
      · rw [h2]
        simp only [List.length_cons]
        congr 2
        omega
      · rw [h4]
        simp [List.append_assoc]

theorem ceil_div_eq (B N : Nat) (hB : 0 < B) :
    (N + B - 1) / B = N / B + (if N % B = 0 then 0 else 1) := by
  by_cases hr : N % B = 0
  · rw [if_pos hr]
    obtain ⟨q, rfl⟩ : ∃ q, N = B * q := ⟨N / B, (Nat.div_mul_cancel
      (Nat.dvd_of_mod_eq_zero hr)).symm.trans (Nat.mul_comm _ _)⟩
    have hq : B * q / B = q := Nat.mul_div_cancel_left q hB
    have heq : B * q + B - 1 = B * q + (B - 1) := by omega
    rw [heq, Nat.mul_add_div hB, Nat.div_eq_of_lt (by omega : B - 1 < B), hq]
  · rw [if_neg hr]
    have h2 : N % B < B := Nat.mod_lt _ hB
    have hexp : N + B - 1 = B * (N / B + 1) + (N % B - 1) := by
      have hdm := Nat.div_add_mod N B
      rw [Nat.mul_add, Nat.mul_one]
      omega
    rw [hexp, Nat.mul_add_div hB, Nat.div_eq_of_lt (by omega : N % B - 1 < B)]

/-- C7 (modelled from the spec, the consumer package being absent from
`src/`): with batch max size B > 0 and no timer firing early, a sequence of N
records produces exactly ceil(N/B) = (N + B − 1) / B flushes, every flush
except possibly the last holds exactly B records, and the concatenation of
the flushes is the record sequence itself — original arrival order, nothing
lost, nothing duplicated. -/
theorem batchAssembler_flushes {α : Type} (B : Nat) (hB : 0 < B) (recs : List α) :
    (assembleBatches B recs).length = (recs.length + B - 1) / B ∧
    (∀ b ∈ (assembleBatches B recs).dropLast, b.length = B) ∧
    (assembleBatches B recs).flatten = recs := by
  obtain ⟨h1, h2, h3, h4⟩ :=
    consume_fold_spec B hB recs { buffer := ([] : List α), flushes := [] } (by simpa using hB)
  simp only [List.length_nil, Nat.zero_add, List.length_append, List.flatten_nil,
    List.nil_append] at h1 h2 h3 h4
  unfold assembleBatches finalFlush
  set st := recs.foldl (consumeRecord B) { buffer := ([] : List α), flushes := [] } with hstdef
  by_cases hemp : st.buffer.isEmpty
  · rw [if_pos hemp]
    have hbufnil : st.buffer = [] := List.isEmpty_iff.mp hemp
    have hmod : recs.length % B = 0 := by
      rw [← h1, hbufnil]
      rfl
    refine ⟨?_, ?_, ?_⟩
    · rw [h2, ceil_div_eq B recs.length hB, if_pos hmod]
      simp
    · intro b hb
      rcases h3 b (List.mem_of_mem_dropLast hb) with h | h
      · exact absurd h (List.not_mem_nil b)
      · exact h
    · rw [← h4, hbufnil, List.append_nil]
  · rw [if_neg hemp]
    have hbufne : st.buffer ≠ [] := fun h => hemp (by simp [h])
    have hmod : recs.length % B ≠ 0 := by
      intro h0
      apply hbufne
      have : st.buffer.length = 0 := by rw [h1, h0]
      exact List.length_eq_zero.mp this
    refine ⟨?_, ?_, ?_⟩
    · rw [List.length_append, h2, ceil_div_eq B recs.length hB, if_neg hmod]
      simp
    · intro b hb
      rw [List.dropLast_concat] at hb
      rcases h3 b hb with h | h
      · exact absurd h (List.not_mem_nil b)
      · exact h
    · rw [List.flatten_append]
      simpa using h4

/-- Closed instance of C7 at the configured batch size: 45 records against
`DefaultBatchSize` = 20 yield ceil(45/20) = 3 flushes whose concatenation is
the input sequence. -/
theorem batchAssembler_flushes_witness :
    (assembleBatches DefaultBatchSize (List.range 45)).length =
      ((List.range 45).length + DefaultBatchSize - 1) / DefaultBatchSize ∧
    (∀ b ∈ (assembleBatches DefaultBatchSize (List.range 45)).dropLast,
      b.length = DefaultBatchSize) ∧
    (assembleBatches DefaultBatchSize (List.range 45)).flatten = List.range 45 :=
  batchAssembler_flushes DefaultBatchSize (by decide) (List.range 45)

end LogAnalytics
